import Mathlib

/-! Verification development for the freelancer-earnings analytics program
(`src/main.py`).  The program loads a CSV of freelancer engagement records,
cleans it, computes a bundle of aggregate statistics (`load_data`), renders the
statistics into a textual context block and asks an external text-generation
service to answer free-text questions about the data (`generate_answer`),
inside an interactive console loop (`main`).

The shallow embedding below models:
  * a raw CSV row as a record of optional string cells (`none` models a
    missing cell, i.e. a NaN produced by `pd.read_csv`);
  * `pd.to_numeric(errors='coerce')` as `parseNum`, a parser for optionally
    signed decimal literals (scientific notation and exotic spellings of NaN
    are outside the modelled grammar);
  * the two-pass cleaning (`df.dropna()` then coercion of the seven numeric
    columns and `df.dropna(subset=numeric_cols)`) as `cleanRows`;
  * `groupby(...).mean().to_dict()` as `groupMean` — pandas `groupby` uses
    `sort=True`, so group keys appear in ascending lexicographic order;
  * `Series.describe().to_dict()` as `Describe`: the numeric flavour (count /
    mean / min / max; the unused std and quartile entries are omitted) when the
    `Job_Completed` column has a numeric dtype, and the object flavour
    (count / unique; the unused top and freq entries are omitted) otherwise —
    only the keys matter downstream, since `generate_answer` reads
    `['min']`, `['max']` and `['mean']` from it;
  * `DataFrame.corr` as `mkCorr`, keeping the rational covariance and
    variance sums; the real-valued Pearson coefficient (which needs square
    roots) is recovered by `CorrData.value`, with `none` modelling the NaN
    pandas yields when either column has zero variance;
  * exceptions as `PyResult`, and the interactive loop as `session`, a
    function over a finite trace of (input line, service outcome) pairs. -/

/- Batteries marks the rational operations irreducible; restore the default
reducibility inside this file so that concrete statistics evaluate under
`decide` (this only tweaks unfolding hints, no axioms or new definitions). -/
attribute [local semireducible] Rat.add Rat.mul Rat.sub Rat.inv Rat.ofScientific

/- ---------------------------------------------------------------- -/
/- Numeric cell parsing (models `pd.to_numeric(..., errors='coerce')`). -/

/-- Value of a list of decimal digit characters, most significant first. -/
def digitsVal (cs : List Char) : ℕ :=
  cs.foldl (fun a c => a * 10 + (c.toNat - 48)) 0

/-- Check that a character list is a non-empty run of decimal digits. -/
def allDigits (cs : List Char) : Bool :=
  !cs.isEmpty && cs.all (·.isDigit)

/-- Split a character list at the first dot, if any. -/
def splitDot : List Char → List Char × Option (List Char)
  | [] => ([], none)
  | '.' :: rest => ([], some rest)
  | c :: rest =>
    let p := splitDot rest
    (c :: p.1, p.2)

/-- Parse an unsigned decimal literal (`"12"`, `"12.5"`, `"12."`, `".5"`). -/
def parseUnsigned (l : List Char) : Option ℚ :=
  match splitDot l with
  | (ip, none) =>
    if allDigits ip then some (digitsVal ip) else none
  | (ip, some fp) =>
    if (allDigits ip || ip.isEmpty) && (allDigits fp || fp.isEmpty)
        && !(ip.isEmpty && fp.isEmpty) then
      some ((digitsVal ip : ℚ) + (digitsVal fp : ℚ) / (10 : ℚ) ^ fp.length)
    else none

/-- Numeric coercion of one string cell, in the role of
`pd.to_numeric(..., errors='coerce')`: `none` is the coercion NaN. -/
def parseNum (s : String) : Option ℚ :=
  match s.data with
  | '-' :: rest => (parseUnsigned rest).map (fun q => -q)
  | '+' :: rest => parseUnsigned rest
  | l => parseUnsigned l

/- ---------------------------------------------------------------- -/
/- Data model: raw CSV rows and cleaned records. -/

/-- One raw CSV row: every expected column of the dataset as an optional
string cell (`none` = missing value / NaN after `pd.read_csv`). -/
structure RawRow where
  Earnings_USD : Option String
  Hourly_Rate : Option String
  Job_Success_Rate : Option String
  Client_Rating : Option String
  Job_Duration_Days : Option String
  Rehire_Rate : Option String
  Marketing_Spend : Option String
  Payment_Method : Option String
  Client_Region : Option String
  Experience_Level : Option String
  Job_Category : Option String
  Platform : Option String
  Job_Completed : Option String
deriving DecidableEq

/-- One cleaned record: the seven columns listed in `numeric_cols`
(main.py lines 19–21) hold parsed numbers; the remaining columns — including
`Job_Completed`, which is NOT in `numeric_cols` — keep their cell text. -/
structure Row where
  Earnings_USD : ℚ
  Hourly_Rate : ℚ
  Job_Success_Rate : ℚ
  Client_Rating : ℚ
  Job_Duration_Days : ℚ
  Rehire_Rate : ℚ
  Marketing_Spend : ℚ
  Payment_Method : String
  Client_Region : String
  Experience_Level : String
  Job_Category : String
  Platform : String
  Job_Completed : String
deriving DecidableEq

/-- Row has no missing cell in any column (the condition `df.dropna()`
keeps, main.py line 18). -/
def rawComplete (r : RawRow) : Bool :=
  r.Earnings_USD.isSome && r.Hourly_Rate.isSome && r.Job_Success_Rate.isSome
    && r.Client_Rating.isSome && r.Job_Duration_Days.isSome
    && r.Rehire_Rate.isSome && r.Marketing_Spend.isSome
    && r.Payment_Method.isSome && r.Client_Region.isSome
    && r.Experience_Level.isSome && r.Job_Category.isSome
    && r.Platform.isSome && r.Job_Completed.isSome

/-- One cell is present and numerically coercible. -/
def cellNumeric (c : Option String) : Bool :=
  (c.bind parseNum).isSome

/-- The seven `numeric_cols` cells all coerce to numbers (the condition
`df.dropna(subset=numeric_cols)` keeps after coercion, main.py lines 22–23). -/
def numericOk (r : RawRow) : Bool :=
  cellNumeric r.Earnings_USD && cellNumeric r.Hourly_Rate
    && cellNumeric r.Job_Success_Rate && cellNumeric r.Client_Rating
    && cellNumeric r.Job_Duration_Days && cellNumeric r.Rehire_Rate
    && cellNumeric r.Marketing_Spend

/-- First cleaning pass, `df.dropna()` (main.py line 18). -/
def dropnaRows (rs : List RawRow) : List RawRow :=
  rs.filter rawComplete

/-- Numeric value of a cell known to be present and coercible (the default
is never reached under `numericOk`). -/
def cellVal (c : Option String) : ℚ :=
  (c.bind parseNum).getD 0

/-- Second cleaning pass on one row: coerce the seven numeric columns and
drop the row if any of them — or any cell at all — is missing or fails
coercion (main.py lines 19–23); survivors have every cell present and every
`numeric_cols` cell parsed. -/
def coerceRow (r : RawRow) : Option Row :=
  if rawComplete r && numericOk r then
    some { Earnings_USD := cellVal r.Earnings_USD
           Hourly_Rate := cellVal r.Hourly_Rate
           Job_Success_Rate := cellVal r.Job_Success_Rate
           Client_Rating := cellVal r.Client_Rating
           Job_Duration_Days := cellVal r.Job_Duration_Days
           Rehire_Rate := cellVal r.Rehire_Rate
           Marketing_Spend := cellVal r.Marketing_Spend
           Payment_Method := r.Payment_Method.getD ""
           Client_Region := r.Client_Region.getD ""
           Experience_Level := r.Experience_Level.getD ""
           Job_Category := r.Job_Category.getD ""
           Platform := r.Platform.getD ""
           Job_Completed := r.Job_Completed.getD "" }
  else none

/-- The full cleaning pipeline of `load_data` (main.py lines 15–23). -/
def cleanRows (rs : List RawRow) : List Row :=
  (dropnaRows rs).filterMap coerceRow

/- ---------------------------------------------------------------- -/
/- Stable sorting (Python's `sorted` and pandas' sorted group keys). -/

/-- Insert `x` in front of the first element `y` with `le x y`; combined with
`sortStable` this is insertion sort, which is stable: an element inserted
earlier (appearing earlier in the input) stays before later equal elements. -/
def insertLe (le : α → α → Bool) (x : α) : List α → List α
  | [] => [x]
  | y :: ys => if le x y then x :: y :: ys else y :: insertLe le x ys

/-- Stable sort by the boolean "less or equal" test `le` (the behaviour
Python guarantees for `sorted`). -/
def sortStable (le : α → α → Bool) : List α → List α
  | [] => []
  | x :: xs => insertLe le x (sortStable le xs)

/-- Code-point comparison of character lists (Python string `<=`). -/
def clLe : List Char → List Char → Bool
  | [], _ => true
  | _ :: _, [] => false
  | a :: as, b :: bs =>
    if a.toNat = b.toNat then clLe as bs else decide (a.toNat < b.toNat)

/-- Lexicographic (code-point) order on strings, as pandas sorts group keys. -/
def strLe (a b : String) : Bool := clLe a.data b.data

/-- Strict version of `strLe`. -/
def strLt (a b : String) : Bool := strLe a b && !(a == b)

/- ---------------------------------------------------------------- -/
/- Aggregation. -/

/-- Mean of a numeric series; `none` models the NaN pandas returns for the
mean of an empty series. -/
def seriesMean (l : List ℚ) : Option ℚ :=
  if l.isEmpty then none else some (l.sum / (l.length : ℚ))

/-- The group keys of `df.groupby(col)`: the distinct values of the column in
ascending order (pandas `groupby` defaults to `sort=True`). -/
def groupKeys (keyOf : Row → String) (df : List Row) : List String :=
  sortStable strLe (df.map keyOf).dedup

/-- The dictionary `df.groupby(keyCol)[valCol].mean().to_dict()`: each distinct
key, in ascending order, mapped to the arithmetic mean of the value column
over the rows having that key (main.py lines 30–35). -/
def groupMean (keyOf : Row → String) (valOf : Row → ℚ) (df : List Row) :
    List (String × ℚ) :=
  (groupKeys keyOf df).map (fun k =>
    let vs := (df.filter (fun r => keyOf r == k)).map valOf
    (k, vs.sum / (vs.length : ℚ)))

/-- Result of `Series.describe().to_dict()` restricted to the entries the
program reads: the numeric flavour carries count/mean/min/max (pandas also
emits std and quartiles, unused here); the object flavour — produced when the
series has object dtype, e.g. when `Job_Completed` holds non-numeric text —
carries count/unique (pandas also emits top and freq, unused here) and in
particular has NO `min`, `max` or `mean` keys. -/
inductive Describe where
  | numeric (count : ℕ) (mean mn mx : Option ℚ)
  | object (count : ℕ) (unique : ℕ)
deriving DecidableEq

/-- Check for the numeric flavour of a describe dictionary, i.e. whether the
keys `min`, `max` and `mean` exist in it. -/
def Describe.isNumeric : Describe → Bool
  | .numeric _ _ _ _ => true
  | .object _ _ => false

/-- Dtype inference of `pd.read_csv` for the `Job_Completed` column, which is
not in `numeric_cols` and hence never coerced: the column is numeric exactly
when it has at least one row and every present cell parses as a number
(a column of a zero-row CSV, or one holding any non-numeric text, gets the
object dtype). -/
def jobCompletedNumeric (raws : List RawRow) : Bool :=
  !raws.isEmpty && raws.all (fun r =>
    match r.Job_Completed with
    | none => true
    | some s => (parseNum s).isSome)

/-- Model of
`df[df['Experience_Level'] == 'Expert']['Job_Completed'].describe().to_dict()`
(main.py line 34). -/
def expertDescribe (raws : List RawRow) (df : List Row) : Describe :=
  let xs := (df.filter (fun r => r.Experience_Level == "Expert")).map
    (fun r => r.Job_Completed)
  if jobCompletedNumeric raws then
    let vs := xs.filterMap parseNum
    .numeric vs.length (seriesMean vs) vs.min? vs.max?
  else
    .object xs.length xs.dedup.length

/-- Sums entering the Pearson correlation of two columns: covariance and the
two variances (times n, uncorrected — the common factor cancels in the
coefficient), all exact rationals. -/
structure CorrData where
  cov : ℚ
  vx : ℚ
  vy : ℚ
deriving DecidableEq

/-- Mean used inside the correlation (total function; the empty case only
arises together with zero variance, where the coefficient is NaN anyway). -/
def colMean (l : List ℚ) : ℚ := l.sum / (l.length : ℚ)

/-- The sums behind `df[[xcol, ycol]].corr().iloc[0, 1]`
(main.py lines 36–37). -/
def mkCorr (ps : List (ℚ × ℚ)) : CorrData :=
  let mx := colMean (ps.map Prod.fst)
  let my := colMean (ps.map Prod.snd)
  let ds := ps.map (fun p => (p.1 - mx, p.2 - my))
  { cov := (ds.map (fun p => p.1 * p.2)).sum
    vx := (ds.map (fun p => p.1 ^ 2)).sum
    vy := (ds.map (fun p => p.2 ^ 2)).sum }

/-- The Pearson coefficient itself: `none` models the NaN pandas produces
when either column has zero variance (this includes empty and one-row
frames); otherwise covariance over the product of standard deviations. -/
noncomputable def CorrData.value (c : CorrData) : Option ℝ :=
  if c.vx = 0 ∨ c.vy = 0 then none
  else some ((c.cov : ℝ) / (Real.sqrt (c.vx : ℝ) * Real.sqrt (c.vy : ℝ)))

/-- The crypto side of the payment-method split (main.py line 28). -/
def cryptoDf (df : List Row) : List Row :=
  df.filter (fun r => r.Payment_Method == "Crypto")

/-- The non-crypto side of the payment-method split (main.py line 29). -/
def nonCryptoDf (df : List Row) : List Row :=
  df.filter (fun r => !(r.Payment_Method == "Crypto"))

/-- The `stats` dictionary built by `load_data` (main.py lines 26–38). -/
structure Stats where
  avg_earnings : Option ℚ
  crypto_earnings : Option ℚ
  non_crypto_earnings : Option ℚ
  regional_earnings : List (String × ℚ)
  experience_stats : List (String × ℚ)
  category_stats : List (String × ℚ)
  platform_stats : List (String × ℚ)
  expert_projects : Describe
  rehire_by_exp : List (String × ℚ)
  rating_vs_earnings : CorrData
  duration_vs_rating : CorrData
deriving DecidableEq

/-- Statistics aggregation of `load_data` over the cleaned frame `df`
(the raw rows are also passed, because the dtype of the uncoerced
`Job_Completed` column was fixed at `pd.read_csv` time). -/
def computeStats (raws : List RawRow) (df : List Row) : Stats :=
  { avg_earnings := seriesMean (df.map (fun r => r.Earnings_USD))
    crypto_earnings := seriesMean ((cryptoDf df).map (fun r => r.Earnings_USD))
    non_crypto_earnings :=
      seriesMean ((nonCryptoDf df).map (fun r => r.Earnings_USD))
    regional_earnings :=
      groupMean (fun r => r.Client_Region) (fun r => r.Earnings_USD) df
    experience_stats :=
      groupMean (fun r => r.Experience_Level) (fun r => r.Earnings_USD) df
    category_stats :=
      groupMean (fun r => r.Job_Category) (fun r => r.Earnings_USD) df
    platform_stats :=
      groupMean (fun r => r.Platform) (fun r => r.Job_Success_Rate) df
    expert_projects := expertDescribe raws df
    rehire_by_exp :=
      groupMean (fun r => r.Experience_Level) (fun r => r.Rehire_Rate) df
    rating_vs_earnings :=
      mkCorr (df.map (fun r => (r.Client_Rating, r.Earnings_USD)))
    duration_vs_rating :=
      mkCorr (df.map (fun r => (r.Job_Duration_Days, r.Client_Rating))) }

/- ---------------------------------------------------------------- -/
/- load_data and main. -/

/-- Input of `load_data`: either the parsed table (every expected column
present), or any exception raised while reading/parsing the CSV or while
touching a missing column, carrying its message. -/
inductive LoadInput where
  | failure (msg : String)
  | data (raws : List RawRow)

/-- The function `load_data` (main.py lines 13–44): on success the cleaned
frame and the stats dictionary, on any exception the `(None, None)` pair after
printing `Error loading data: ...`; the second component of the result is the
list of printed lines. -/
def load_data (inp : LoadInput) :
    (Option (List Row) × Option Stats) × List String :=
  match inp with
  | .failure msg => ((none, none), ["Error loading data: " ++ msg])
  | .data raws =>
    ((some (cleanRows raws), some (computeStats raws (cleanRows raws))), [])

/-- Outcome of the startup part of `main` (main.py lines 96–102): either the
fatal exit taken when `df is None`, or entry into the question loop. Each
constructor carries the lines printed on the way. -/
inductive MainOutcome where
  | fatalExit (printed : List String)
  | interactive (df : List Row) (ostats : Option Stats) (printed : List String)

/-- Startup control flow of `main`: load, test `df is None`, and either print
the failure message and return, or proceed to the loop. -/
def mainFlow (inp : LoadInput) : MainOutcome :=
  match load_data inp with
  | ((none, _), msgs) => .fatalExit (msgs ++ ["Failed to load data. Exiting."])
  | ((some df, ostats), msgs) => .interactive df ostats msgs

/- ---------------------------------------------------------------- -/
/- Context building and answer generation. -/

/-- Result of running a piece of Python code: a value, or an uncaught
exception carrying its message. -/
inductive PyResult (α : Type) where
  | ok (a : α)
  | raised (e : String)
deriving DecidableEq

/-- Extract success as a Bool. -/
def PyResult.isOk : PyResult α → Bool
  | .ok _ => true
  | .raised _ => false

/-- Map over the success value. -/
def PyResult.map (f : α → β) : PyResult α → PyResult β
  | .ok a => .ok (f a)
  | .raised e => .raised e

/-- The data embedded in the context block of `generate_answer`
(main.py lines 48–74), field by field in the order the f-string renders
them. -/
structure Context where
  avg : Option ℚ
  crypto : Option ℚ
  noncrypto : Option ℚ
  corrRatingEarnings : CorrData
  corrDurationRating : CorrData
  regional : List (String × ℚ)
  experience : List (String × ℚ)
  rehire : List (String × ℚ)
  top5 : List (String × ℚ)
  platform : List (String × ℚ)
  expertMin : Option ℚ
  expertMax : Option ℚ
  expertMean : Option ℚ
  sampleRows : List Row
deriving DecidableEq

/-- The comparison Python's `sorted(..., key=lambda x: -x[1])` sorts by:
`a` may stay before `b` when `-a.2 ≤ -b.2`. -/
def valLe (a b : String × ℚ) : Bool := decide (b.2 ≤ a.2)

/-- The top-5 job-category list of the context block (main.py line 64):
Python's stable `sorted` on the dictionary items with key `-x[1]` (descending
by mean earnings), then the first five. -/
def top5Categories (s : Stats) : List (String × ℚ) :=
  (sortStable valLe s.category_stats).take 5

/-- Strict order actually realised by the top-5 listing: descending mean
earnings, ties broken by ascending (lexicographic) category name. -/
def rankOrd (a b : String × ℚ) : Prop :=
  b.2 < a.2 ∨ (a.2 = b.2 ∧ strLt a.1 b.1 = true)

/-- Strictly ascending keys, lifted to dictionary entries. -/
def keyLtRel (a b : String × ℚ) : Prop :=
  strLt a.1 b.1 = true

/-- Job categories in the order they are first encountered in the cleaned
records.  This definition follows the SPEC's words (ties in the top-5
listing "resolved by the order in which the categories were first
encountered"), not the code; it exists only to compare the spec's claimed
ordering against the code's. -/
def firstEncounterCategories (rows : List Row) : List String :=
  rows.foldl (fun acc r =>
    if r.Job_Category ∈ acc then acc else acc ++ [r.Job_Category]) []

/-- The top-5 list the spec describes: category means listed in
first-encounter order, stable-sorted by descending mean, first five.
Definition written from the spec's words for comparison with
`top5Categories` (which is translated from the code). -/
def specFirstEncounterTop5 (rows : List Row) : List (String × ℚ) :=
  (sortStable valLe ((firstEncounterCategories rows).map (fun k =>
    let vs := (rows.filter (fun r => r.Job_Category == k)).map
      (fun r => r.Earnings_USD)
    (k, vs.sum / (vs.length : ℚ))))).take 5

/-- Building the context block (main.py lines 48–74).  This happens OUTSIDE
the `try` of `generate_answer`; the one step of it that can raise is the
lookup `stats['expert_projects']['min']` (line 70), a `KeyError` when the
describe dictionary has the object flavour. -/
def buildContext (stats : Stats) (df_sample : List Row) : PyResult Context :=
  match stats.expert_projects with
  | .object _ _ => .raised "KeyError: 'min'"
  | .numeric _ me mn mx =>
    .ok { avg := stats.avg_earnings
          crypto := stats.crypto_earnings
          noncrypto := stats.non_crypto_earnings
          corrRatingEarnings := stats.rating_vs_earnings
          corrDurationRating := stats.duration_vs_rating
          regional := stats.regional_earnings
          experience := stats.experience_stats
          rehire := stats.rehire_by_exp
          top5 := top5Categories stats
          platform := stats.platform_stats
          expertMin := mn
          expertMax := mx
          expertMean := me
          sampleRows := df_sample.take 3 }

/-- Outcome of the one external chat-completion call: the answer text, or any
exception the client raises (network, quota, malformed response ...). -/
inductive SvcResult where
  | ok (text : String)
  | failure (msg : String)

/-- The function `generate_answer` (main.py lines 47–93): build the context
(outside the `try` — a failure there propagates), then run the external call
inside `try/except`, turning any service exception into the string
`Error generating answer: ...`. -/
def generate_answer (query : String) (stats : Stats) (df_sample : List Row)
    (svc : SvcResult) : PyResult String :=
  match buildContext stats df_sample with
  | .raised e => .raised e
  | .ok _ =>
    match svc with
    | .ok t => .ok t
    | .failure m => .ok ("Error generating answer: " ++ m)

/- ---------------------------------------------------------------- -/
/- The interactive loop. -/

/-- ASCII whitespace as stripped by Python's `str.strip()`. -/
def wsChar (c : Char) : Bool :=
  c = ' ' || c = '\t' || c = '\n' || c = '\r'

/-- Python's `str.strip()`: drop whitespace from both ends (main.py
line 117). -/
def pyStrip (s : String) : String :=
  ⟨((s.data.dropWhile wsChar).reverse.dropWhile wsChar).reverse⟩

/-- Lower-case one ASCII character. -/
def lowChar (c : Char) : Char :=
  if 65 ≤ c.toNat ∧ c.toNat ≤ 90 then Char.ofNat (c.toNat + 32) else c

/-- Python's `str.lower()` on the (ASCII) inputs of interest (main.py
line 118). -/
def pyLower (s : String) : String :=
  ⟨s.data.map lowChar⟩

/-- The question loop of `main` (main.py lines 116–124), run over a finite
trace of (input line, service outcome) pairs.  Result: the list of printed
answers together with whether the loop was left through `exit` (`true`) or the
trace ran out (`false`) — or the exception that escaped it. -/
def session (stats : Stats) (sample : List Row) :
    List (String × SvcResult) → PyResult (List String × Bool)
  | [] => .ok ([], false)
  | (line, svc) :: rest =>
    let q := pyStrip line
    if pyLower q = "exit" then .ok ([], true)
    else if q = "" then session stats sample rest
    else
      match generate_answer q stats sample svc with
      | .raised e => .raised e
      | .ok a =>
        match session stats sample rest with
        | .raised e => .raised e
        | .ok (as, b) => .ok (a :: as, b)

/-- The (stats, sample) arguments handed to each `generate_answer` call
during a session: the loop body of `main` rebinds neither `stats` nor `df`,
so every call receives the loop's unchanged variables. -/
def loopCalls (stats : Stats) (sample : List Row) :
    List (String × SvcResult) → List (Stats × List Row)
  | [] => []
  | (line, _) :: rest =>
    let q := pyStrip line
    if pyLower q = "exit" then []
    else if q = "" then loopCalls stats sample rest
    else (stats, sample) :: loopCalls stats sample rest

/- ---------------------------------------------------------------- -/
/- Spec-level properties and concrete test datasets. -/

/-- The property the spec states for every grouped mean: looking up a key in
the result mapping gives the equal-weighted arithmetic mean of the value
column over exactly the rows carrying that key, and nothing (no entry, no
zero sentinel) when no row carries it. -/
def groupedMeanSpec (keyOf : Row → String) (valOf : Row → ℚ) (df : List Row)
    (m : List (String × ℚ)) : Prop :=
  ∀ k : String,
    List.lookup k m =
      if ((df.filter (fun r => keyOf r == k)).isEmpty : Bool) then none
      else some (((df.filter (fun r => keyOf r == k)).map valOf).sum
        / (((df.filter (fun r => keyOf r == k)).map valOf).length : ℚ))

/-- Build a fully populated raw row from its thirteen cell texts. -/
def mkRaw (earn hr jsr cr jdd rr ms pm reg ex jc pl jcmp : String) : RawRow :=
  { Earnings_USD := some earn, Hourly_Rate := some hr,
    Job_Success_Rate := some jsr, Client_Rating := some cr,
    Job_Duration_Days := some jdd, Rehire_Rate := some rr,
    Marketing_Spend := some ms, Payment_Method := some pm,
    Client_Region := some reg, Experience_Level := some ex,
    Job_Category := some jc, Platform := some pl, Job_Completed := some jcmp }

/-- The spec's worked example: three fully valid rows with experience levels
Beginner, Expert, Expert and earnings 100, 300, 500. -/
def D8 : List RawRow :=
  [ mkRaw "100" "10" "90" "4" "30" "50" "5" "PayPal" "Asia" "Beginner" "Web"
      "Fiverr" "12",
    mkRaw "300" "20" "80" "5" "20" "60" "6" "Crypto" "Europe" "Expert" "Web"
      "Upwork" "40",
    mkRaw "500" "30" "70" "3" "10" "70" "7" "Crypto" "Asia" "Expert" "Design"
      "Upwork" "60" ]

/-- A dataset whose only flaw is a non-numeric completed-job count: every
required cell is present and all seven `numeric_cols` parse, but
`Job_Completed` is the text `"abc"`, which is not in `numeric_cols` and is
therefore never checked by the cleaning. -/
def D1bad : List RawRow :=
  [ mkRaw "250" "25" "85" "4" "15" "40" "3" "PayPal" "Asia" "Expert" "Web"
      "Fiverr" "abc" ]

/-- A fully valid single-row dataset. -/
def D1w : List RawRow :=
  [ mkRaw "100" "10" "90" "4" "30" "50" "5" "PayPal" "Asia" "Beginner" "Web"
      "Fiverr" "12" ]

/-- The cleaned record the single row of `D1w` becomes. -/
def R1w : Row :=
  { Earnings_USD := 100, Hourly_Rate := 10, Job_Success_Rate := 90,
    Client_Rating := 4, Job_Duration_Days := 30, Rehire_Rate := 50,
    Marketing_Spend := 5, Payment_Method := "PayPal", Client_Region := "Asia",
    Experience_Level := "Beginner", Job_Category := "Web",
    Platform := "Fiverr", Job_Completed := "12" }

/-- Two rows with equal mean earnings whose categories are first encountered
in the order Zed, Alpha — the order `sorted` would preserve for the tie if
the dictionary were in encounter order, which it is not (pandas `groupby`
sorted it). -/
def D3x : List RawRow :=
  [ mkRaw "100" "10" "90" "4" "30" "50" "5" "PayPal" "Asia" "Beginner" "Zed"
      "Fiverr" "12",
    mkRaw "100" "20" "80" "5" "20" "60" "6" "Card" "Europe" "Expert" "Alpha"
      "Upwork" "40" ]

/-- A dataset load_data accepts (one clean Expert row) whose `Job_Completed`
column has object dtype, so its describe dictionary has no `min` key. -/
def D5x : List RawRow :=
  [ mkRaw "100" "10" "90" "4" "30" "50" "5" "PayPal" "Asia" "Expert" "Web"
      "Fiverr" "abc" ]

/-- Same shape as `D5x` with different figures, for the loop-level
counterexample. -/
def D7x : List RawRow :=
  [ mkRaw "700" "70" "60" "5" "25" "30" "9" "Crypto" "Europe" "Expert"
      "Design" "Upwork" "xyz" ]

/-- A valid dataset for the loop-level witness: numeric `Job_Completed`. -/
def D7w : List RawRow :=
  [ mkRaw "700" "70" "60" "5" "25" "30" "9" "Crypto" "Europe" "Expert"
      "Design" "Upwork" "8" ]

/-- A crypto/non-crypto mixed dataset: one crypto row earning 100 and two
non-crypto rows earning 200 and 400. -/
def D10w : List RawRow :=
  [ mkRaw "100" "10" "90" "4" "30" "50" "5" "Crypto" "Asia" "Beginner" "Web"
      "Fiverr" "12",
    mkRaw "200" "20" "80" "5" "20" "60" "6" "PayPal" "Europe" "Expert" "Web"
      "Upwork" "40",
    mkRaw "400" "30" "70" "3" "10" "70" "7" "Card" "Asia" "Expert" "Design"
      "Upwork" "60" ]

/-- The cleaned record of the crypto row of `D10w`. -/
def R10c : Row :=
  { Earnings_USD := 100, Hourly_Rate := 10, Job_Success_Rate := 90,
    Client_Rating := 4, Job_Duration_Days := 30, Rehire_Rate := 50,
    Marketing_Spend := 5, Payment_Method := "Crypto", Client_Region := "Asia",
    Experience_Level := "Beginner", Job_Category := "Web",
    Platform := "Fiverr", Job_Completed := "12" }

/- ---------------------------------------------------------------- -/
/- Lemmas about the stable insertion sort. -/

theorem insertLe_perm (le : α → α → Bool) (x : α) (l : List α) :
    List.Perm (insertLe le x l) (x :: l) := by
  induction l with
  | nil => exact List.Perm.refl _
  | cons y ys ih =>
    by_cases h : le x y
    · simp [insertLe, h]
    · simp only [insertLe, if_neg h]
      exact (ih.cons y).trans (List.Perm.swap x y ys)

theorem sortStable_perm (le : α → α → Bool) (l : List α) :
    List.Perm (sortStable le l) l := by
  induction l with
  | nil => exact List.Perm.refl _
  | cons x xs ih =>
    exact (insertLe_perm le x (sortStable le xs)).trans (ih.cons x)

theorem mem_insertLe {le : α → α → Bool} {x z : α} {l : List α} :
    z ∈ insertLe le x l ↔ z = x ∨ z ∈ l := by
  rw [(insertLe_perm le x l).mem_iff, List.mem_cons]

theorem mem_sortStable {le : α → α → Bool} {z : α} {l : List α} :
    z ∈ sortStable le l ↔ z ∈ l :=
  (sortStable_perm le l).mem_iff

theorem pairwise_insertLe {le : α → α → Bool}
    (htot : ∀ a b, le a b = true ∨ le b a = true)
    (htr : ∀ a b c, le a b = true → le b c = true → le a c = true)
    (x : α) {l : List α} (h : l.Pairwise (fun a b => le a b = true)) :
    (insertLe le x l).Pairwise (fun a b => le a b = true) := by
  induction l with
  | nil => simp [insertLe]
  | cons y ys ih =>
    obtain ⟨hy, hys⟩ := List.pairwise_cons.mp h
    by_cases hxy : le x y
    · simp only [insertLe, if_pos hxy]
      refine List.pairwise_cons.mpr ⟨?_, h⟩
      intro z hz
      rcases List.mem_cons.mp hz with rfl | hzys
      · exact hxy
      · exact htr x y z hxy (hy z hzys)
    · simp only [insertLe, if_neg hxy]
      refine List.pairwise_cons.mpr ⟨?_, ih hys⟩
      intro z hz
      rcases mem_insertLe.mp hz with rfl | hzys
      · rcases htot z y with hzy | hyz
        · exact absurd hzy hxy
        · exact hyz
      · exact hy z hzys

theorem pairwise_sortStable {le : α → α → Bool}
    (htot : ∀ a b, le a b = true ∨ le b a = true)
    (htr : ∀ a b c, le a b = true → le b c = true → le a c = true)
    (l : List α) :
    (sortStable le l).Pairwise (fun a b => le a b = true) := by
  induction l with
  | nil => simp [sortStable]
  | cons x xs ih => exact pairwise_insertLe htot htr x ih

/- ---------------------------------------------------------------- -/
/- Laws of the string order. -/

theorem clLe_total : ∀ a b : List Char, clLe a b = true ∨ clLe b a = true := by
  intro a
  induction a with
  | nil => intro b; left; cases b <;> rfl
  | cons x xs ih =>
    intro b
    cases b with
    | nil => right; rfl
    | cons y ys =>
      simp only [clLe]
      by_cases h : x.toNat = y.toNat
      · rw [if_pos h, if_pos h.symm]
        exact ih ys
      · rw [if_neg h, if_neg (Ne.symm h)]
        rcases Nat.lt_or_ge x.toNat y.toNat with hlt | hge
        · left; exact decide_eq_true hlt
        · right
          exact decide_eq_true (Nat.lt_of_le_of_ne hge (fun e => h e.symm))

theorem clLe_trans : ∀ a b c : List Char,
    clLe a b = true → clLe b c = true → clLe a c = true := by
  intro a
  induction a with
  | nil => intro b c _ _; cases c <;> rfl
  | cons x xs ih =>
    intro b c hab hbc
    cases b with
    | nil => simp [clLe] at hab
    | cons y ys =>
      cases c with
      | nil => simp [clLe] at hbc
      | cons z zs =>
        simp only [clLe] at hab hbc ⊢
        by_cases h1 : x.toNat = y.toNat <;> by_cases h2 : y.toNat = z.toNat
        · rw [if_pos h1] at hab
          rw [if_pos h2] at hbc
          rw [if_pos (h1.trans h2)]
          exact ih ys zs hab hbc
        · rw [if_neg h2] at hbc
          have hlt : y.toNat < z.toNat := of_decide_eq_true hbc
          rw [if_neg (by omega : ¬ x.toNat = z.toNat)]
          exact decide_eq_true (by omega)
        · rw [if_neg h1] at hab
          have hlt : x.toNat < y.toNat := of_decide_eq_true hab
          rw [if_neg (by omega : ¬ x.toNat = z.toNat)]
          exact decide_eq_true (by omega)
        · rw [if_neg h1] at hab
          rw [if_neg h2] at hbc
          have hlt1 : x.toNat < y.toNat := of_decide_eq_true hab
          have hlt2 : y.toNat < z.toNat := of_decide_eq_true hbc
          rw [if_neg (by omega : ¬ x.toNat = z.toNat)]
          exact decide_eq_true (by omega)

theorem strLe_total : ∀ a b : String, strLe a b = true ∨ strLe b a = true :=
  fun a b => clLe_total a.data b.data

theorem strLe_trans : ∀ a b c : String,
    strLe a b = true → strLe b c = true → strLe a c = true :=
  fun a b c => clLe_trans a.data b.data c.data

theorem strLt_of_strLe_ne {a b : String} (h : strLe a b = true) (hne : a ≠ b) :
    strLt a b = true := by
  simp [strLt, h, hne]

/- ---------------------------------------------------------------- -/
/- Stability of the top-5 sort over a key-sorted dictionary. -/

theorem valLe_true_iff {a b : String × ℚ} : valLe a b = true ↔ b.2 ≤ a.2 := by
  simp [valLe]

theorem pairwise_insertLe_rank (x : String × ℚ) {l : List (String × ℚ)}
    (hk : ∀ y ∈ l, strLt x.1 y.1 = true) (h : l.Pairwise rankOrd) :
    (insertLe valLe x l).Pairwise rankOrd := by
  induction l with
  | nil => simp [insertLe]
  | cons y ys ih =>
    obtain ⟨hy, hys⟩ := List.pairwise_cons.mp h
    by_cases hxy : valLe x y
    · simp only [insertLe, if_pos hxy]
      refine List.pairwise_cons.mpr ⟨?_, h⟩
      intro z hz
      have hyx : y.2 ≤ x.2 := valLe_true_iff.mp hxy
      rcases List.mem_cons.mp hz with rfl | hzys
      · rcases lt_or_eq_of_le hyx with hlt | heq
        · exact Or.inl hlt
        · exact Or.inr ⟨heq.symm, hk z (List.mem_cons_self _ _)⟩
      · have hzx : z.2 ≤ x.2 := by
          rcases hy z hzys with hlt | ⟨heq, _⟩
          · exact (le_of_lt hlt).trans hyx
          · exact heq ▸ hyx
        rcases lt_or_eq_of_le hzx with hlt | heq
        · exact Or.inl hlt
        · exact Or.inr ⟨heq.symm, hk z (List.mem_cons_of_mem y hzys)⟩
    · simp only [insertLe, if_neg hxy]
      have hxlt : x.2 < y.2 := by
        have : ¬ y.2 ≤ x.2 := fun hc => hxy (valLe_true_iff.mpr hc)
        exact lt_of_not_le this
      refine List.pairwise_cons.mpr
        ⟨?_, ih (fun z hz => hk z (List.mem_cons_of_mem y hz)) hys⟩
      intro z hz
      rcases mem_insertLe.mp hz with rfl | hzys
      · exact Or.inl hxlt
      · exact hy z hzys

theorem pairwise_sortStable_rank {l : List (String × ℚ)}
    (hl : l.Pairwise keyLtRel) :
    (sortStable valLe l).Pairwise rankOrd := by
  induction l with
  | nil => simp [sortStable]
  | cons x xs ih =>
    obtain ⟨hx, hxs⟩ := List.pairwise_cons.mp hl
    exact pairwise_insertLe_rank x
      (fun y hy => hx y (mem_sortStable.mp hy)) (ih hxs)

/- ---------------------------------------------------------------- -/
/- Lemmas about grouped means. -/

theorem lookup_map_keys (f : String → ℚ) :
    ∀ (keys : List String) (k : String),
      List.lookup k (keys.map (fun a => (a, f a)))
        = if k ∈ keys then some (f k) else none := by
  intro keys
  induction keys with
  | nil => intro k; simp
  | cons a as ih =>
    intro k
    by_cases h : k = a
    · subst h; simp [List.lookup]
    · simp [List.lookup, h, ih k, beq_eq_false_iff_ne.mpr h]

theorem mem_groupKeys {keyOf : Row → String} {df : List Row} {k : String} :
    k ∈ groupKeys keyOf df ↔ (df.filter (fun r => keyOf r == k)) ≠ [] := by
  rw [groupKeys, mem_sortStable, List.mem_dedup, List.mem_map]
  constructor
  · rintro ⟨r, hr, rfl⟩ hnil
    rw [List.filter_eq_nil_iff] at hnil
    exact hnil r hr (by simp)
  · intro hne
    rcases List.exists_mem_of_ne_nil _ hne with ⟨r, hr⟩
    rw [List.mem_filter] at hr
    exact ⟨r, hr.1, by simpa using hr.2⟩

theorem nodup_groupKeys (keyOf : Row → String) (df : List Row) :
    (groupKeys keyOf df).Nodup :=
  ((sortStable_perm strLe _).nodup_iff).mpr (List.nodup_dedup _)

theorem pairwise_strLt_groupKeys (keyOf : Row → String) (df : List Row) :
    (groupKeys keyOf df).Pairwise (fun a b => strLt a b = true) := by
  have hs : (groupKeys keyOf df).Pairwise (fun a b => strLe a b = true) :=
    pairwise_sortStable strLe_total strLe_trans _
  have hn : (groupKeys keyOf df).Pairwise (fun a b : String => a ≠ b) :=
    nodup_groupKeys keyOf df
  exact (hs.and hn).imp (fun h => strLt_of_strLe_ne h.1 h.2)

theorem groupMean_spec (keyOf : Row → String) (valOf : Row → ℚ)
    (df : List Row) :
    groupedMeanSpec keyOf valOf df (groupMean keyOf valOf df) := by
  intro k
  rw [groupMean]
  rw [lookup_map_keys (fun a =>
    (((df.filter (fun r => keyOf r == a)).map valOf).sum
      / (((df.filter (fun r => keyOf r == a)).map valOf).length : ℚ))) _ k]
  by_cases h : (df.filter (fun r => keyOf r == k)) = []
  · rw [if_neg (fun hmem => mem_groupKeys.mp hmem h), if_pos]
    rw [h]; rfl
  · rw [if_pos (mem_groupKeys.mpr h), if_neg]
    simp [List.isEmpty_iff, h]

theorem pairwise_keyLt_groupMean (keyOf : Row → String) (valOf : Row → ℚ)
    (df : List Row) :
    (groupMean keyOf valOf df).Pairwise keyLtRel := by
  rw [groupMean, List.pairwise_map]
  exact (pairwise_strLt_groupKeys keyOf df).imp (fun h => h)

/- ---------------------------------------------------------------- -/
/- Cauchy-Schwarz for the correlation sums. -/

theorem sum_sq_nonneg_fst (l : List (ℚ × ℚ)) :
    0 ≤ (l.map (fun p => p.1 ^ 2)).sum := by
  apply List.sum_nonneg
  intro x hx
  rcases List.mem_map.mp hx with ⟨p, _, rfl⟩
  exact sq_nonneg _

theorem sum_sq_nonneg_snd (l : List (ℚ × ℚ)) :
    0 ≤ (l.map (fun p => p.2 ^ 2)).sum := by
  apply List.sum_nonneg
  intro x hx
  rcases List.mem_map.mp hx with ⟨p, _, rfl⟩
  exact sq_nonneg _

theorem pairs_cauchy (l : List (ℚ × ℚ)) :
    ((l.map (fun p => p.1 * p.2)).sum) ^ 2
      ≤ ((l.map (fun p => p.1 ^ 2)).sum) * ((l.map (fun p => p.2 ^ 2)).sum) := by
  induction l with
  | nil => simp
  | cons p t ih =>
    obtain ⟨a, b⟩ := p
    have hA : 0 ≤ (t.map (fun p => p.1 ^ 2)).sum := sum_sq_nonneg_fst t
    have hB : 0 ≤ (t.map (fun p => p.2 ^ 2)).sum := sum_sq_nonneg_snd t
    simp only [List.map_cons, List.sum_cons]
    set S := (t.map (fun p => p.1 * p.2)).sum with hS
    set A := (t.map (fun p => p.1 ^ 2)).sum with hA2
    set B := (t.map (fun p => p.2 ^ 2)).sum with hB2
    have hmul : 4 * (a * b) ^ 2 * S ^ 2 ≤ 4 * (a * b) ^ 2 * (A * B) :=
      mul_le_mul_of_nonneg_left ih (by positivity)
    have h1 : (2 * (a * b) * S) ^ 2 ≤ (a ^ 2 * B + b ^ 2 * A) ^ 2 := by
      nlinarith [hmul, sq_nonneg (a ^ 2 * B - b ^ 2 * A)]
    have h2 : 2 * (a * b) * S ≤ a ^ 2 * B + b ^ 2 * A := by
      have hrhs : (0 : ℚ) ≤ a ^ 2 * B + b ^ 2 * A := by positivity
      exact le_of_pow_le_pow_left two_ne_zero hrhs h1
    nlinarith [h2, ih]

theorem mkCorr_cauchy (ps : List (ℚ × ℚ)) :
    (mkCorr ps).cov ^ 2 ≤ (mkCorr ps).vx * (mkCorr ps).vy := by
  simpa [mkCorr] using
    pairs_cauchy (ps.map (fun p =>
      (p.1 - colMean (ps.map Prod.fst), p.2 - colMean (ps.map Prod.snd))))

theorem mkCorr_vx_nonneg (ps : List (ℚ × ℚ)) : 0 ≤ (mkCorr ps).vx := by
  simpa [mkCorr] using
    sum_sq_nonneg_fst (ps.map (fun p =>
      (p.1 - colMean (ps.map Prod.fst), p.2 - colMean (ps.map Prod.snd))))

theorem mkCorr_vy_nonneg (ps : List (ℚ × ℚ)) : 0 ≤ (mkCorr ps).vy := by
  simpa [mkCorr] using
    sum_sq_nonneg_snd (ps.map (fun p =>
      (p.1 - colMean (ps.map Prod.fst), p.2 - colMean (ps.map Prod.snd))))

theorem corr_value_bound (c : CorrData) (hcs : c.cov ^ 2 ≤ c.vx * c.vy)
    (hx : 0 ≤ c.vx) (hy : 0 ≤ c.vy) :
    ∀ r : ℝ, c.value = some r → -1 ≤ r ∧ r ≤ 1 := by
  intro r hr
  unfold CorrData.value at hr
  by_cases h : c.vx = 0 ∨ c.vy = 0
  · rw [if_pos h] at hr
    exact absurd hr (by simp)
  · rw [if_neg h] at hr
    push_neg at h
    have hx' : (0 : ℝ) < (c.vx : ℝ) := by
      exact_mod_cast lt_of_le_of_ne hx (Ne.symm h.1)
    have hy' : (0 : ℝ) < (c.vy : ℝ) := by
      exact_mod_cast lt_of_le_of_ne hy (Ne.symm h.2)
    have hrv : r = (c.cov : ℝ) / (Real.sqrt (c.vx : ℝ) * Real.sqrt (c.vy : ℝ)) :=
      (Option.some.inj hr).symm
    have hs : Real.sqrt (c.vx : ℝ) * Real.sqrt (c.vy : ℝ)
        = Real.sqrt ((c.vx : ℝ) * (c.vy : ℝ)) :=
      (Real.sqrt_mul hx'.le _).symm
    have hsq : Real.sqrt ((c.vx : ℝ) * (c.vy : ℝ)) ^ 2 = (c.vx : ℝ) * (c.vy : ℝ) :=
      Real.sq_sqrt (by positivity)
    have hr2 : r ^ 2 = (c.cov : ℝ) ^ 2 / ((c.vx : ℝ) * (c.vy : ℝ)) := by
      rw [hrv, hs, div_pow, hsq]
    have hcs' : ((c.cov : ℝ)) ^ 2 ≤ (c.vx : ℝ) * (c.vy : ℝ) := by
      exact_mod_cast hcs
    have hle : r ^ 2 ≤ 1 := by
      rw [hr2]
      exact (div_le_one (by positivity)).mpr hcs'
    exact abs_le.mp ((sq_le_one_iff_abs_le_one r).mp hle)

theorem corr_value_none_of_degenerate (c : CorrData)
    (h : c.vx = 0 ∨ c.vy = 0) : c.value = none := by
  unfold CorrData.value
  rw [if_pos h]

/- ---------------------------------------------------------------- -/
/- Lemmas about the cleaning pipeline. -/

theorem coerceRow_isSome (r : RawRow) :
    (coerceRow r).isSome = (rawComplete r && numericOk r) := by
  by_cases h : rawComplete r && numericOk r <;> simp [coerceRow, h]

theorem cleanRows_length (raws : List RawRow) :
    (cleanRows raws).length
      = (raws.filter (fun w => rawComplete w && numericOk w)).length := by
  induction raws with
  | nil => rfl
  | cons w t ih =>
    by_cases hc : rawComplete w
    · by_cases hn : numericOk w
      · have hs : (coerceRow w).isSome = true := by
          rw [coerceRow_isSome, hc, hn]; rfl
        rcases Option.isSome_iff_exists.mp hs with ⟨row, hrow⟩
        simp [cleanRows, dropnaRows, List.filter_cons, hc, hn, hrow,
          List.filterMap_cons]
        simpa [cleanRows, dropnaRows] using ih
      · rw [Bool.not_eq_true] at hn
        have hs : (coerceRow w).isSome = false := by
          rw [coerceRow_isSome, hc, hn]; rfl
        have hnone : coerceRow w = none := Option.not_isSome_iff_eq_none.mp
          (by rw [hs]; exact Bool.false_ne_true)
        simp [cleanRows, dropnaRows, List.filter_cons, hc, hn, hnone,
          List.filterMap_cons]
        simpa [cleanRows, dropnaRows] using ih
    · simp [cleanRows, dropnaRows, List.filter_cons, hc]
      simpa [cleanRows, dropnaRows] using ih

theorem cleanRows_source (raws : List RawRow) :
    ∀ r ∈ cleanRows raws,
      (raws.any (fun w =>
        rawComplete w && numericOk w && (coerceRow w == some r))) = true := by
  intro r hr
  rw [cleanRows] at hr
  rcases List.mem_filterMap.mp hr with ⟨w, hw, hcoerce⟩
  rw [dropnaRows, List.mem_filter] at hw
  have hsome : (coerceRow w).isSome = true := by rw [hcoerce]; rfl
  have hcn : (rawComplete w && numericOk w) = true := by
    rw [← coerceRow_isSome]; exact hsome
  refine List.any_eq_true.mpr ⟨w, hw.1, ?_⟩
  simp [hcn, hcoerce]

/- ---------------------------------------------------------------- -/
/- Lemmas about the crypto split. -/

theorem filter_length_partition (p : α → Bool) (l : List α) :
    (l.filter p).length + (l.filter (fun a => !p a)).length = l.length := by
  induction l with
  | nil => rfl
  | cons x t ih =>
    by_cases h : p x <;>
      simp [List.filter_cons, h, ih, Nat.succ_eq_add_one] <;> omega

theorem filter_map_sum_partition (p : α → Bool) (v : α → ℚ) (l : List α) :
    ((l.filter p).map v).sum + ((l.filter (fun a => !p a)).map v).sum
      = (l.map v).sum := by
  induction l with
  | nil => simp
  | cons x t ih =>
    by_cases h : p x <;>
      simp [List.filter_cons, h, List.map_cons, List.sum_cons, ← ih] <;> ring

theorem seriesMean_eq_some {l : List ℚ} {m : ℚ} (h : seriesMean l = some m) :
    l ≠ [] ∧ m = l.sum / (l.length : ℚ) := by
  by_cases he : l.isEmpty
  · rw [seriesMean, if_pos he] at h
    exact absurd h (by simp)
  · rw [seriesMean, if_neg he] at h
    refine ⟨fun hnil => he (by simp [hnil]), (Option.some.inj h).symm⟩

/- ---------------------------------------------------------------- -/
/- Lemmas about answer generation and the loop. -/

theorem generate_answer_of_numeric (query : String) (stats : Stats)
    (sample : List Row) (svc : SvcResult)
    (h : stats.expert_projects.isNumeric = true) :
    generate_answer query stats sample svc
      = .ok (match svc with
             | .ok t => t
             | .failure m => "Error generating answer: " ++ m) := by
  rcases hd : stats.expert_projects with ⟨c, me, mn, mx⟩ | ⟨c, u⟩
  · cases svc <;> simp [generate_answer, buildContext, hd]
  · rw [hd] at h
    exact absurd h (by simp [Describe.isNumeric])

theorem generate_answer_raises_of_object (query : String) (stats : Stats)
    (sample : List Row) (svc : SvcResult)
    (h : stats.expert_projects.isNumeric = false) :
    generate_answer query stats sample svc = .raised "KeyError: 'min'" := by
  rcases hd : stats.expert_projects with ⟨c, me, mn, mx⟩ | ⟨c, u⟩
  · rw [hd] at h
    exact absurd h (by simp [Describe.isNumeric])
  · simp [generate_answer, buildContext, hd]

/- ---------------------------------------------------------------- -/
/- Claim theorems. -/

/-- C1 (amended): every record surviving `load_data`'s cleaning originates
from a raw row that has a non-missing value in every required column and
whose seven `numeric_cols` cells (`Earnings_USD`, `Hourly_Rate`,
`Job_Success_Rate`, `Client_Rating`, `Job_Duration_Days`, `Rehire_Rate`,
`Marketing_Spend`) all parse as numbers; rows failing either condition are
dropped entirely, so the survivors are exactly the rows passing both checks.
The completed-job count, however, is NOT among the coerced columns and is
not required to parse (see the counterexample). -/
theorem c1_cleaning_amended (raws : List RawRow) :
    ((cleanRows raws).length
      = (raws.filter (fun w => rawComplete w && numericOk w)).length)
  ∧ (∀ r ∈ cleanRows raws,
      (raws.any (fun w =>
        rawComplete w && numericOk w && (coerceRow w == some r))) = true) :=
  ⟨cleanRows_length raws, cleanRows_source raws⟩

/-- C1 witness: on the concrete one-row dataset `D1w` the cleaned set has
the filtered length and its (only) record `R1w` stems from a complete,
numerically coercible raw row. -/
theorem c1_witness :
    ((cleanRows D1w).length
      = (D1w.filter (fun w => rawComplete w && numericOk w)).length)
  ∧ (D1w.any (fun w =>
      rawComplete w && numericOk w && (coerceRow w == some R1w))) = true :=
  ⟨(c1_cleaning_amended D1w).1, (c1_cleaning_amended D1w).2 R1w (by decide)⟩

/-- C1 counterexample: the claim as stated is false — on `D1bad` exactly one
record survives the cleaning although its completed-job count `"abc"` does
not parse as a number, because `Job_Completed` is not in `numeric_cols`
(main.py lines 19–21). -/
theorem c1_counterexample :
    (cleanRows D1bad).length = 1
  ∧ ((cleanRows D1bad).all (fun r => (parseNum r.Job_Completed).isNone))
      = true :=
  ⟨by decide, by decide⟩

/-- C2: for every cleaned record set, looking up a key in each of the five
grouped-mean mappings of the StatsBundle yields the equal-weighted arithmetic
mean of that column over exactly the rows whose key equals the group key, and
a key with zero matching rows is absent from the mapping. -/
theorem c2_grouped_means (raws : List RawRow) :
    groupedMeanSpec (fun r => r.Client_Region) (fun r => r.Earnings_USD)
      (cleanRows raws) (computeStats raws (cleanRows raws)).regional_earnings
  ∧ groupedMeanSpec (fun r => r.Experience_Level) (fun r => r.Earnings_USD)
      (cleanRows raws) (computeStats raws (cleanRows raws)).experience_stats
  ∧ groupedMeanSpec (fun r => r.Job_Category) (fun r => r.Earnings_USD)
      (cleanRows raws) (computeStats raws (cleanRows raws)).category_stats
  ∧ groupedMeanSpec (fun r => r.Platform) (fun r => r.Job_Success_Rate)
      (cleanRows raws) (computeStats raws (cleanRows raws)).platform_stats
  ∧ groupedMeanSpec (fun r => r.Experience_Level) (fun r => r.Rehire_Rate)
      (cleanRows raws)
      (computeStats raws (cleanRows raws)).rehire_by_exp :=
  ⟨groupMean_spec _ _ _, groupMean_spec _ _ _, groupMean_spec _ _ _,
   groupMean_spec _ _ _, groupMean_spec _ _ _⟩

/-- C3 (amended): the top-5 job-category list embedded in the context block
is the first five entries of the stable descending sort of the category
dictionary; it is sorted by strictly descending mean earnings with ties
resolved by ASCENDING LEXICOGRAPHIC category name (because pandas `groupby`
already sorted the dictionary keys alphabetically, and Python's stable
`sorted` preserves that order among equal means) — not by first-encounter
order; when at most five categories exist the list is a permutation of the
whole dictionary, still so sorted. -/
theorem c3_top5_amended (raws : List RawRow) :
    (sortStable valLe
        (computeStats raws (cleanRows raws)).category_stats).Pairwise rankOrd
  ∧ List.Perm
      (sortStable valLe (computeStats raws (cleanRows raws)).category_stats)
      (computeStats raws (cleanRows raws)).category_stats
  ∧ top5Categories (computeStats raws (cleanRows raws))
      = (sortStable valLe
          (computeStats raws (cleanRows raws)).category_stats).take 5
  ∧ (top5Categories (computeStats raws (cleanRows raws))).Pairwise rankOrd
  ∧ ((computeStats raws (cleanRows raws)).category_stats.length ≤ 5 →
      List.Perm (top5Categories (computeStats raws (cleanRows raws)))
        (computeStats raws (cleanRows raws)).category_stats) := by
  have hkey :
      ((computeStats raws (cleanRows raws)).category_stats).Pairwise keyLtRel :=
    pairwise_keyLt_groupMean (fun r => r.Job_Category)
      (fun r => r.Earnings_USD) (cleanRows raws)
  have h1 := pairwise_sortStable_rank hkey
  have h2 := sortStable_perm valLe
    (computeStats raws (cleanRows raws)).category_stats
  refine ⟨h1, h2, rfl, List.Pairwise.sublist (List.take_sublist _ _) h1, ?_⟩
  intro hle
  rw [top5Categories, List.take_of_length_le]
  · exact h2
  · rw [h2.length_eq]; exact hle

/-- C3 witness: on `D3x` (two categories, hence fewer than five) the top-5
list is a permutation of the whole category dictionary and is sorted by
`rankOrd`. -/
theorem c3_witness :
    List.Perm (top5Categories (computeStats D3x (cleanRows D3x)))
      (computeStats D3x (cleanRows D3x)).category_stats
  ∧ (top5Categories (computeStats D3x (cleanRows D3x))).Pairwise rankOrd :=
  ⟨(c3_top5_amended D3x).2.2.2.2 (by decide), (c3_top5_amended D3x).2.2.2.1⟩

/-- C3 counterexample: the claim's tie-break is false on the code.  In `D3x`
the categories are first encountered in the order Zed, Alpha with equal mean
earnings; the code produces the alphabetical order Alpha, Zed, while the
ordering the spec describes (stable sort of the first-encounter-ordered
mapping) gives Zed, Alpha. -/
theorem c3_counterexample :
    top5Categories (computeStats D3x (cleanRows D3x))
      = [("Alpha", 100), ("Zed", 100)]
  ∧ specFirstEncounterTop5 (cleanRows D3x) = [("Zed", 100), ("Alpha", 100)]
  ∧ top5Categories (computeStats D3x (cleanRows D3x))
      ≠ specFirstEncounterTop5 (cleanRows D3x) :=
  ⟨by decide, by decide, by decide⟩

/-- C4: every defined Pearson coefficient in the StatsBundle lies in
[-1, 1]; when either column of a correlation has zero variance the
coefficient is the undefined marker (`none`, the NaN pandas produces), and
`load_data` still succeeds — it returns a frame and a stats bundle, it does
not crash. -/
theorem c4_correlation (raws : List RawRow) :
    (∀ r : ℝ,
      (computeStats raws (cleanRows raws)).rating_vs_earnings.value = some r →
        -1 ≤ r ∧ r ≤ 1)
  ∧ (∀ r : ℝ,
      (computeStats raws (cleanRows raws)).duration_vs_rating.value = some r →
        -1 ≤ r ∧ r ≤ 1)
  ∧ ((computeStats raws (cleanRows raws)).rating_vs_earnings.vx = 0 ∨
      (computeStats raws (cleanRows raws)).rating_vs_earnings.vy = 0 →
      (computeStats raws (cleanRows raws)).rating_vs_earnings.value = none)
  ∧ ((computeStats raws (cleanRows raws)).duration_vs_rating.vx = 0 ∨
      (computeStats raws (cleanRows raws)).duration_vs_rating.vy = 0 →
      (computeStats raws (cleanRows raws)).duration_vs_rating.value = none)
  ∧ (load_data (.data raws)).1.1.isSome = true
  ∧ (load_data (.data raws)).1.2.isSome = true :=
  ⟨corr_value_bound _ (mkCorr_cauchy _) (mkCorr_vx_nonneg _)
      (mkCorr_vy_nonneg _),
   corr_value_bound _ (mkCorr_cauchy _) (mkCorr_vx_nonneg _)
      (mkCorr_vy_nonneg _),
   corr_value_none_of_degenerate _,
   corr_value_none_of_degenerate _, rfl, rfl⟩

/-- C4 witness: on `D8` the rating/earnings correlation is defined (its
variance sums are 2 and 80000, covariance -200) and the bound holds for its
concrete value. -/
theorem c4_witness :
    (computeStats D8 (cleanRows D8)).rating_vs_earnings.value
      = some ((-200 : ℝ) / (Real.sqrt 2 * Real.sqrt 80000))
  ∧ (-1 ≤ (-200 : ℝ) / (Real.sqrt 2 * Real.sqrt 80000)
      ∧ (-200 : ℝ) / (Real.sqrt 2 * Real.sqrt 80000) ≤ 1) := by
  have hc : (computeStats D8 (cleanRows D8)).rating_vs_earnings
      = { cov := -200, vx := 2, vy := 80000 } := by decide
  have hv : (computeStats D8 (cleanRows D8)).rating_vs_earnings.value
      = some ((-200 : ℝ) / (Real.sqrt 2 * Real.sqrt 80000)) := by
    rw [hc]
    unfold CorrData.value
    rw [if_neg (by norm_num)]
    norm_num
  exact ⟨hv, (c4_correlation D8).1 _ hv⟩

/-- C5 (amended): whenever the StatsBundle's expert-projects summary has the
numeric describe keys — which is the case exactly when the completed-jobs
column of the loaded CSV had a numeric dtype — `generate_answer` returns a
string for every question, sample and service outcome, and any failure of
the external call is converted to the string `Error generating answer: ...`.
When the summary instead has the object flavour (no `min` key), the context
construction raises a `KeyError` BEFORE the `try` block and the exception
propagates (see the counterexample). -/
theorem c5_answer_amended (query : String) (stats : Stats)
    (sample : List Row) (svc : SvcResult)
    (h : stats.expert_projects.isNumeric = true) :
    (generate_answer query stats sample svc).isOk = true
  ∧ (∀ m, svc = .failure m →
      generate_answer query stats sample svc
        = .ok ("Error generating answer: " ++ m)) := by
  constructor
  · rw [generate_answer_of_numeric query stats sample svc h]
    rfl
  · intro m hm
    subst hm
    rw [generate_answer_of_numeric query stats sample (.failure m) h]

/-- C5 witness: on the valid dataset `D8` the summary is numeric and a
failing service call yields the error string, not an exception. -/
theorem c5_witness :
    (computeStats D8 (cleanRows D8)).expert_projects.isNumeric = true
  ∧ (generate_answer "q" (computeStats D8 (cleanRows D8)) (cleanRows D8)
      (.failure "quota exceeded")).isOk = true
  ∧ generate_answer "q" (computeStats D8 (cleanRows D8)) (cleanRows D8)
      (.failure "quota exceeded")
      = .ok ("Error generating answer: " ++ "quota exceeded") := by
  have h : (computeStats D8 (cleanRows D8)).expert_projects.isNumeric = true :=
    by decide
  exact ⟨h, (c5_answer_amended "q" _ _ _ h).1,
    (c5_answer_amended "q" _ _ _ h).2 "quota exceeded" rfl⟩

/-- C5 counterexample: the claim as stated ("returns a string ... for any
inputs") is false.  `load_data` accepts `D5x` (one clean row whose
`Job_Completed` text is `"abc"`), yet `generate_answer` on its StatsBundle
raises a `KeyError` while formatting `stats['expert_projects']['min']` —
outside the `try` — even though the service call itself would succeed. -/
theorem c5_counterexample :
    (load_data (.data D5x)).1.1.isSome = true
  ∧ generate_answer "Average earnings?" (computeStats D5x (cleanRows D5x))
      (cleanRows D5x) (.ok "the answer") = .raised "KeyError: 'min'"
  ∧ (generate_answer "Average earnings?" (computeStats D5x (cleanRows D5x))
      (cleanRows D5x) (.ok "the answer")).isOk = false :=
  ⟨by decide, by decide, by decide⟩

/-- C6: any exception while loading or parsing makes `load_data` return the
`(None, None)` pair after printing `Error loading data: ...`, and `main`
then prints the failure message and terminates without aggregating anything
or entering the question loop. -/
theorem c6_fatal_load (msg : String) :
    load_data (.failure msg) = ((none, none), ["Error loading data: " ++ msg])
  ∧ mainFlow (.failure msg)
      = .fatalExit (["Error loading data: " ++ msg]
          ++ ["Failed to load data. Exiting."]) :=
  ⟨rfl, rfl⟩

/-- C7 (amended): provided the StatsBundle's expert-projects summary has the
numeric describe keys, a query whose external call fails yields the error
string and the loop goes on to process the remaining input unchanged (a
per-query service failure never terminates the session); the session ends on
the token `exit` (case-insensitively, after stripping) with the rest of the
input untouched; a line that is blank after stripping is skipped without
invoking answer generation.  Without that proviso the session can die of the
`KeyError` (see the counterexample). -/
theorem c7_loop_amended (stats : Stats) (sample : List Row)
    (h : stats.expert_projects.isNumeric = true) :
    (∀ line m rest, pyStrip line ≠ "" → pyLower (pyStrip line) ≠ "exit" →
      session stats sample ((line, .failure m) :: rest)
        = PyResult.map
            (fun p => (("Error generating answer: " ++ m) :: p.1, p.2))
            (session stats sample rest))
  ∧ (∀ line svc rest, pyLower (pyStrip line) = "exit" →
      session stats sample ((line, svc) :: rest) = .ok ([], true))
  ∧ (∀ line svc rest, pyStrip line = "" →
      session stats sample ((line, svc) :: rest)
        = session stats sample rest) := by
  refine ⟨?_, ?_, ?_⟩
  · intro line m rest h1 h2
    simp only [session, if_neg h2, if_neg h1]
    rw [generate_answer_of_numeric _ _ _ _ h]
    cases hs : session stats sample rest with
    | raised e => simp [PyResult.map]
    | ok p => obtain ⟨as, b⟩ := p; simp [PyResult.map]
  · intro line svc rest h1
    simp only [session, if_pos h1]
  · intro line svc rest h1
    have h2 : ¬ pyLower (pyStrip line) = "exit" := by
      rw [h1]; decide
    simp only [session, if_neg h2, if_pos h1]

/-- C7 witness: in a concrete session over the valid dataset `D7w`, a first
query with a failing service call prints the error string, the loop then
still accepts the next line, and ` EXIT ` (stripped, case-insensitive) ends
the session. -/
theorem c7_witness :
    (computeStats D7w (cleanRows D7w)).expert_projects.isNumeric = true
  ∧ session (computeStats D7w (cleanRows D7w)) (cleanRows D7w)
      [("What pays most?", .failure "net down"), (" EXIT ", .ok "t")]
      = .ok (["Error generating answer: " ++ "net down"], true) := by
  have h : (computeStats D7w (cleanRows D7w)).expert_projects.isNumeric
      = true := by decide
  have h1 := (c7_loop_amended _ (cleanRows D7w) h).1 "What pays most?"
    "net down" [(" EXIT ", .ok "t")] (by decide) (by decide)
  have h2 := (c7_loop_amended _ (cleanRows D7w) h).2.1 " EXIT " (.ok "t") []
    (by decide)
  refine ⟨h, ?_⟩
  rw [h1, h2]
  rfl

/-- C7 counterexample: the claim's "the session ends only when the user
enters the literal token exit" is false as stated: on the StatsBundle of
`D7x` (accepted by `load_data`) the very first question kills the session
with a `KeyError` although the user never typed `exit` and the service call
would even have succeeded. -/
theorem c7_counterexample :
    (load_data (.data D7x)).1.1.isSome = true
  ∧ session (computeStats D7x (cleanRows D7x)) (cleanRows D7x)
      [("Which region earns most?", .ok "Europe")]
      = .raised "KeyError: 'min'" :=
  ⟨by decide, by decide⟩

/-- C8: on the spec's example dataset (`D8`: Beginner earning 100, two
Experts earning 300 and 500) the experience mapping is exactly
Beginner to 100.0 and Expert to 400.0. -/
theorem c8_experience_example :
    (computeStats D8 (cleanRows D8)).experience_stats
      = [("Beginner", 100), ("Expert", 400)] := by decide

/-- C9: the loop body of `main` rebinds neither `stats` nor `df`, so every
`generate_answer` invocation of a session — whatever the inputs and however
many queries, failures included — receives exactly the originally
constructed StatsBundle and sample: they are never mutated between calls. -/
theorem c9_frame_immutable (stats : Stats) (sample : List Row)
    (inputs : List (String × SvcResult)) :
    (loopCalls stats sample inputs).all
      (fun c => decide (c = (stats, sample))) = true := by
  induction inputs with
  | nil => rfl
  | cons p rest ih =>
    obtain ⟨line, svc⟩ := p
    simp only [loopCalls]
    by_cases h1 : pyLower (pyStrip line) = "exit"
    · rw [if_pos h1]; rfl
    · rw [if_neg h1]
      by_cases h2 : pyStrip line = ""
      · rw [if_pos h2]; exact ih
      · rw [if_neg h2]
        simp [ih]

/-- C10: the crypto/non-crypto earnings split partitions the cleaned rows —
each row lands in exactly one of the two filtered frames, according to
whether its payment method is the string `Crypto` — and when both splits are
non-empty the overall mean earnings is the count-weighted average of the two
split means. -/
theorem c10_crypto_partition (raws : List RawRow) :
    ((cryptoDf (cleanRows raws)).length
        + (nonCryptoDf (cleanRows raws)).length = (cleanRows raws).length)
  ∧ (∀ r ∈ cleanRows raws,
      (r ∈ cryptoDf (cleanRows raws) ↔ r.Payment_Method = "Crypto")
      ∧ (r ∈ nonCryptoDf (cleanRows raws) ↔ r.Payment_Method ≠ "Crypto"))
  ∧ (∀ m1 m2,
      (computeStats raws (cleanRows raws)).crypto_earnings = some m1 →
      (computeStats raws (cleanRows raws)).non_crypto_earnings = some m2 →
      (computeStats raws (cleanRows raws)).avg_earnings
        = some ((((cryptoDf (cleanRows raws)).length : ℚ) * m1
            + ((nonCryptoDf (cleanRows raws)).length : ℚ) * m2)
          / (((cryptoDf (cleanRows raws)).length : ℚ)
            + ((nonCryptoDf (cleanRows raws)).length : ℚ)))) := by
  refine ⟨filter_length_partition _ _, ?_, ?_⟩
  · intro r hr
    constructor
    · simp [cryptoDf, List.mem_filter, hr]
    · simp [nonCryptoDf, List.mem_filter, hr]
  · intro m1 m2 h1 h2
    obtain ⟨hne1, hm1⟩ := seriesMean_eq_some h1
    obtain ⟨hne2, hm2⟩ := seriesMean_eq_some h2
    have hc1 : cryptoDf (cleanRows raws) ≠ [] := by
      intro hnil
      exact hne1 (by rw [cryptoDf] at hnil; simp [cryptoDf, hnil])
    have hc2 : nonCryptoDf (cleanRows raws) ≠ [] := by
      intro hnil
      exact hne2 (by rw [nonCryptoDf] at hnil; simp [nonCryptoDf, hnil])
    have hd : cleanRows raws ≠ [] := by
      intro hnil
      exact hc1 (by simp [cryptoDf, hnil])
    have hn1 : (((cryptoDf (cleanRows raws)).length : ℚ)) ≠ 0 := by
      exact_mod_cast fun hz =>
        hc1 (List.length_eq_zero.mp (by exact_mod_cast hz))
    have hn2 : (((nonCryptoDf (cleanRows raws)).length : ℚ)) ≠ 0 := by
      exact_mod_cast fun hz =>
        hc2 (List.length_eq_zero.mp (by exact_mod_cast hz))
    have hsum :
        (((cryptoDf (cleanRows raws)).map (fun r => r.Earnings_USD)).sum
          + ((nonCryptoDf (cleanRows raws)).map
              (fun r => r.Earnings_USD)).sum)
          = ((cleanRows raws).map (fun r => r.Earnings_USD)).sum :=
      filter_map_sum_partition _ _ _
    have hlen : (cryptoDf (cleanRows raws)).length
        + (nonCryptoDf (cleanRows raws)).length = (cleanRows raws).length :=
      filter_length_partition _ _
    show seriesMean ((cleanRows raws).map (fun r => r.Earnings_USD)) = _
    rw [seriesMean,
      if_neg (by simpa [List.isEmpty_iff] using hd)]
    rw [hm1, hm2]
    congr 1
    rw [List.length_map, List.length_map, List.length_map, ← hsum, ← hlen]
    push_cast
    field_simp

/-- C10 witness: on `D10w` (one crypto row earning 100, two non-crypto rows
earning 200 and 400) the split lengths partition the frame, the crypto row
`R10c` lies exactly in the crypto split, and the overall mean is the
count-weighted average of the split means 100 and 300. -/
theorem c10_witness :
    ((cryptoDf (cleanRows D10w)).length
        + (nonCryptoDf (cleanRows D10w)).length = (cleanRows D10w).length)
  ∧ (R10c ∈ cryptoDf (cleanRows D10w) ↔ R10c.Payment_Method = "Crypto")
  ∧ (computeStats D10w (cleanRows D10w)).crypto_earnings = some 100
  ∧ (computeStats D10w (cleanRows D10w)).non_crypto_earnings = some 300
  ∧ (computeStats D10w (cleanRows D10w)).avg_earnings
      = some ((((cryptoDf (cleanRows D10w)).length : ℚ) * 100
          + ((nonCryptoDf (cleanRows D10w)).length : ℚ) * 300)
        / (((cryptoDf (cleanRows D10w)).length : ℚ)
          + ((nonCryptoDf (cleanRows D10w)).length : ℚ))) := by
  have h1 : (computeStats D10w (cleanRows D10w)).crypto_earnings = some 100 :=
    by decide
  have h2 : (computeStats D10w (cleanRows D10w)).non_crypto_earnings
      = some 300 := by decide
  exact ⟨(c10_crypto_partition D10w).1,
    ((c10_crypto_partition D10w).2.1 R10c (by decide)).1,
    h1, h2, (c10_crypto_partition D10w).2.2 100 300 h1 h2⟩
